import Mathlib

/-!
Verification of the session-identity and ownership model of the math-teacher
backend.  The Python source is shallowly embedded: SQLAlchemy tables become
lists of records inside a `DB` state, the process-wide `conversations` cache
becomes an association list inside a `ServerState`, and every operation is a
pure state-passing function translated clause by clause from the source.

Modelling conventions:

* Opaque uuid strings (user session tokens and chat session ids) are compared
  only for equality in the source, so they are modelled as naturals drawn from
  a fresh-supply counter `uuidCtr` carried in the state (`str(uuid.uuid4())`
  becomes "take the counter value and bump it").
* Timestamps (`datetime.utcnow()` / `datetime.now()`) are an abstract tick
  `now : Nat` supplied by the caller; the server state carries a `clock`.
* JWTs: `jwt.encode`/`jwt.decode` with a fixed secret are modelled by passing
  the decoded payload itself; forging a signature is outside the model, and
  `verify_token` checks only expiry, as the source does beyond the signature.
* bcrypt hashing is an external collaborator used only to set and compare
  password hashes; it is modelled by an abstract injection `hashPassword`.
* SQLAlchemy `query(...).first()` becomes `List.find?`; in-place ORM mutation
  of a fetched row followed by `commit()` becomes a keyed map over the table.
-/

namespace MathTeacher

/-- Role string constant for user messages. -/
def roleUser : String := "user"

/-- Role string constant for assistant messages. -/
def roleAssistant : String := "assistant"

/-- Account type string for anonymous users. -/
def anonType : String := "anonymous"

/-- Account type string for registered users. -/
def registeredType : String := "registered"

/-- JWT token type for access tokens. -/
def typeAccess : String := "access"

/-- JWT token type for refresh tokens. -/
def typeRefresh : String := "refresh"

/-- JWT_ACCESS_TOKEN_EXPIRE_MINUTES = 24 * 60 (auth_service.py). -/
def jwtAccessExpireMinutes : Nat := 24 * 60

/-- JWT_REFRESH_TOKEN_EXPIRE_DAYS = 30, expressed in minutes (auth_service.py). -/
def jwtRefreshExpireMinutes : Nat := 30 * 24 * 60

/-- bcrypt is an external collaborator; only presence and equality of hashes
matter to the embedded code, so hashing is modelled as an injection. -/
def hashPassword (pw : String) : String := pw

/-- Row of the `users` table (class User, database.py). -/
structure UserRec where
  id : Nat
  username : Option String
  email : Option String
  password_hash : Option String
  session_token : Option Nat
  display_name : Option String
  is_active : Bool
  is_verified : Bool
  account_type : String
  created_at : Nat
  last_active : Nat
  last_login : Option Nat
  preferences : List (String × String)
deriving Repr, DecidableEq

/-- Row of the `chat_sessions` table (class ChatSession, database.py).
`id` is the autoincrement primary key; `session_id` the opaque uuid;
`user_id` the mandatory owner.  `ai_context` is an opaque JSON list. -/
structure SessionRec where
  id : Nat
  session_id : Nat
  user_id : Nat
  title : String
  message_count : Nat
  is_archived : Bool
  ai_context : List String
  created_at : Nat
  last_active : Nat
deriving Repr, DecidableEq

/-- Row of the `chat_messages` table (class ChatMessage, database.py). -/
structure MessageRec where
  id : Nat
  chat_session_id : Nat
  role : String
  content : String
  timestamp : Nat
  message_index : Nat
deriving Repr, DecidableEq

/-- The durable store: the three tables, the autoincrement counters, and the
fresh-uuid supply. -/
structure DB where
  users : List UserRec
  sessions : List SessionRec
  messages : List MessageRec
  nextUserId : Nat
  nextSessionRowId : Nat
  nextMessageId : Nat
  uuidCtr : Nat
deriving Repr, DecidableEq

/-- Mutation of a fetched user row followed by commit: keyed map on the
primary key. -/
def updateUserRow (db : DB) (uid : Nat) (f : UserRec → UserRec) : DB :=
  { db with users := db.users.map (fun u => if u.id = uid then f u else u) }

/-- Mutation of a fetched chat-session row followed by commit: keyed map on
the unique `session_id` column. -/
def updateSessionRow (db : DB) (sid : Nat) (f : SessionRec → SessionRec) : DB :=
  { db with sessions := db.sessions.map (fun s => if s.session_id = sid then f s else s) }

/-- Default preferences dict used at user creation (database.py). -/
def defaultPrefs : List (String × String) :=
  [("theme", "dark"), ("auto_save_interval", "30")]

/-- Embeds `ensure_user_exists` (database.py, the SECURITY FIXED version):
lookup by e-mail, then by session token, and otherwise unconditionally create
a brand-new user — the reuse-any-anonymous-row fallback was removed. -/
def ensure_user_exists (db : DB) (now : Nat)
    (session_token : Option Nat) (email : Option String) : UserRec × DB :=
  match email.bind (fun e => db.users.find? (fun u => u.email == some e.toLower)) with
  | some u =>
      ({ u with last_active := now },
       updateUserRow db u.id (fun v => { v with last_active := now }))
  | none =>
    match session_token.bind (fun t => db.users.find? (fun u => u.session_token == some t)) with
    | some u =>
        ({ u with last_active := now },
         updateUserRow db u.id (fun v => { v with last_active := now }))
    | none =>
      let tok : Nat := match session_token with | some t => t | none => db.uuidCtr
      let u : UserRec :=
        { id := db.nextUserId, username := none, email := email.map (fun e => e.toLower),
          password_hash := none, session_token := some tok, display_name := none,
          is_active := true, is_verified := false,
          account_type := if email.isSome then registeredType else anonType,
          created_at := now, last_active := now, last_login := none,
          preferences := defaultPrefs }
      (u, { db with
              users := db.users ++ [u]
              nextUserId := db.nextUserId + 1
              uuidCtr := if session_token.isSome then db.uuidCtr else db.uuidCtr + 1 })

/-- Embeds `DatabaseService.get_or_create_user` (db_service.py): lookup by
session token; when no token is given, fall back to the first user whose
`username` is NULL ("This prevents creating multiple anonymous users"); only
then create a new row. -/
def get_or_create_user (db : DB) (now : Nat) (session_token : Option Nat) : UserRec × DB :=
  match session_token.bind (fun t => db.users.find? (fun u => u.session_token == some t)) with
  | some u =>
      ({ u with last_active := now },
       updateUserRow db u.id (fun v => { v with last_active := now }))
  | none =>
    match (if session_token.isNone then
             db.users.find? (fun u => u.username == (none : Option String))
           else none) with
    | some u =>
        ({ u with last_active := now },
         updateUserRow db u.id (fun v => { v with last_active := now }))
    | none =>
      let tok : Nat := match session_token with | some t => t | none => db.uuidCtr
      let u : UserRec :=
        { id := db.nextUserId, username := none, email := none,
          password_hash := none, session_token := some tok, display_name := none,
          is_active := true, is_verified := false, account_type := anonType,
          created_at := now, last_active := now, last_login := none,
          preferences := defaultPrefs }
      (u, { db with
              users := db.users ++ [u]
              nextUserId := db.nextUserId + 1
              uuidCtr := if session_token.isSome then db.uuidCtr else db.uuidCtr + 1 })

/-- Embeds `AuthService.validate_session_token` (auth_service.py): exact-match
lookup on `session_token`; the match must additionally be active; on success
`last_active` is refreshed and the user returned, otherwise `None`; SQL errors
also yield `None`. -/
def validate_session_token (db : DB) (now : Nat) (tok : Nat) : Option UserRec × DB :=
  match db.users.find? (fun u => u.session_token == some tok) with
  | some u =>
      if u.is_active then
        (some { u with last_active := now },
         updateUserRow db u.id (fun v => { v with last_active := now }))
      else (none, db)
  | none => (none, db)

/-- Decoded JWT payload: `sub` (user id, stored as a string in the source and
parsed back with `int`), optional `email`, issue and expiry ticks, and the
`type` discriminator (`typ` here, since `type` is reserved in Lean). -/
structure JwtPayload where
  sub : Nat
  email : Option String
  iat : Nat
  exp : Nat
  typ : String
deriving Repr, DecidableEq

/-- Error taxonomy of the authentication service, mirroring the HTTPException
reasons raised in auth_service.py. -/
inductive AuthError where
  | duplicateEmail
  | tokenExpired
  | invalidTokenType
  | userNotFoundOrInactive
deriving Repr, DecidableEq

/-- Token pair returned by registration, login and refresh (class AuthTokens). -/
structure AuthTokens where
  access_token : JwtPayload
  refresh_token : JwtPayload
  expires_in : Nat
deriving Repr, DecidableEq

/-- Embeds `AuthService.create_access_token`: payload carries subject, email,
issue time, expiry `now + JWT_ACCESS_TOKEN_EXPIRE_MINUTES`, and type
`access`. -/
def create_access_token (now : Nat) (user_id : Nat) (email : Option String) : JwtPayload :=
  { sub := user_id, email := email, iat := now,
    exp := now + jwtAccessExpireMinutes, typ := typeAccess }

/-- Embeds `AuthService.create_refresh_token`: no email claim, 30-day expiry,
type `refresh`. -/
def create_refresh_token (now : Nat) (user_id : Nat) : JwtPayload :=
  { sub := user_id, email := none, iat := now,
    exp := now + jwtRefreshExpireMinutes, typ := typeRefresh }

/-- Embeds `AuthService.verify_token`: `jwt.decode` checks signature (outside
the model: only honestly signed payloads are represented) and expiry; an
expired token raises, which the callers turn into "no identity". -/
def verify_token (now : Nat) (tok : JwtPayload) : Except AuthError JwtPayload :=
  if tok.exp < now then .error .tokenExpired else .ok tok

/-- Embeds `AuthService.get_user_from_token`: verify the JWT, load the user by
the embedded id, require it active, refresh `last_active`; any failure yields
`None`.  Note the source never inspects the payload's `type` here. -/
def get_user_from_token (db : DB) (now : Nat) (tok : JwtPayload) : Option UserRec × DB :=
  match verify_token now tok with
  | .error _ => (none, db)
  | .ok payload =>
    match db.users.find? (fun u => u.id == payload.sub) with
    | some u =>
        if u.is_active then
          (some { u with last_active := now },
           updateUserRow db u.id (fun v => { v with last_active := now }))
        else (none, db)
    | none => (none, db)

/-- Embeds `AuthService.refresh_access_token`: verify, require `type ==
refresh`, require the user exist and be active, refresh `last_active`, and
rotate both tokens. -/
def refresh_access_token (db : DB) (now : Nat) (tok : JwtPayload) :
    Except AuthError (AuthTokens × DB) :=
  match verify_token now tok with
  | .error e => .error e
  | .ok payload =>
    if payload.typ != typeRefresh then .error .invalidTokenType
    else
      match db.users.find? (fun u => u.id == payload.sub) with
      | none => .error .userNotFoundOrInactive
      | some u =>
        if !u.is_active then .error .userNotFoundOrInactive
        else
          .ok ({ access_token := create_access_token now u.id u.email,
                 refresh_token := create_refresh_token now u.id,
                 expires_in := jwtAccessExpireMinutes * 60 },
               updateUserRow db u.id (fun v => { v with last_active := now }))

/-- Modelled from the spec: `User.promote_to_registered` is called by
`AuthService.register_user` but its definition is absent from the sources
(database.py's User class does not declare it).  Per the spec, promotion is a
one-way in-place transition: the same `id` and `session_token` (and
preferences) persist while `email`, `password_hash` and `account_type` are
populated. -/
def promote_to_registered (u : UserRec) (email password : String)
    (display_name : Option String) : UserRec :=
  { u with email := some email, password_hash := some (hashPassword password),
           display_name := match display_name with
                           | some d => some d
                           | none => u.display_name,
           account_type := registeredType }

/-- Local part of an e-mail address: `email.split('@')[0]` in the source. -/
def emailLocal (e : String) : String := e.takeWhile (fun c => c != '@')

/-- Embeds `AuthService.register_user`: duplicate-email check first; then, if
a legacy `session_token` was supplied and matches an anonymous user, promote
that user in place (stamping `last_login`) and issue tokens; otherwise create
a brand-new registered user. -/
def register_user (db : DB) (now : Nat) (email password : String)
    (display_name : Option String) (session_token : Option Nat) :
    Except AuthError (UserRec × AuthTokens × DB) :=
  match db.users.find? (fun u => u.email == some email.toLower) with
  | some _ => .error .duplicateEmail
  | none =>
    match session_token.bind (fun t =>
        db.users.find? (fun u =>
          u.session_token == some t && u.account_type == anonType)) with
    | some a =>
        let a' := { promote_to_registered a email password display_name with
                      last_login := some now }
        .ok (a',
             { access_token := create_access_token now a'.id a'.email,
               refresh_token := create_refresh_token now a'.id,
               expires_in := jwtAccessExpireMinutes * 60 },
             updateUserRow db a.id (fun _ => a'))
    | none =>
        let nu : UserRec :=
          { id := db.nextUserId, username := none, email := some email.toLower,
            password_hash := some (hashPassword password),
            display_name := some (match display_name with
                                  | some d => d
                                  | none => emailLocal email),
            session_token := some db.uuidCtr, is_active := true, is_verified := false,
            account_type := registeredType, created_at := now, last_active := now,
            last_login := some now, preferences := defaultPrefs }
        .ok (nu,
             { access_token := create_access_token now nu.id nu.email,
               refresh_token := create_refresh_token now nu.id,
               expires_in := jwtAccessExpireMinutes * 60 },
             { db with
                 users := db.users ++ [nu]
                 nextUserId := db.nextUserId + 1
                 uuidCtr := db.uuidCtr + 1 })

/-- Title constant used by `create_session` in main.py. -/
def titleNewSession : String := "New Math Session"

/-- Title constant used by `ensure_session_exists_in_db` in db_service.py. -/
def titleRestored : String := "Restored Session"

/-- Embeds `DatabaseService.create_chat_session`: when no `user_id` is given
the (fixed) `ensure_user_exists` mints an owner; the row gets the supplied or
a fresh `session_id`, the supplied or default title, and zero messages. -/
def create_chat_session (db : DB) (now : Nat) (user_id : Option Nat)
    (session_id : Option Nat) (title : Option String) : SessionRec × DB :=
  let (uid, db) :=
    match user_id with
    | some i => (i, db)
    | none => let p := ensure_user_exists db now none none
              (p.1.id, p.2)
  let (sid, db) :=
    match session_id with
    | some s => (s, db)
    | none => (db.uuidCtr, { db with uuidCtr := db.uuidCtr + 1 })
  let row : SessionRec :=
    { id := db.nextSessionRowId, session_id := sid, user_id := uid,
      title := match title with | some t => t | none => titleNewSession,
      message_count := 0, is_archived := false, ai_context := [],
      created_at := now, last_active := now }
  (row, { db with
            sessions := db.sessions ++ [row]
            nextSessionRowId := db.nextSessionRowId + 1 })

/-- Embeds `DatabaseService.get_chat_session`: lookup by the unique
`session_id`; a hit refreshes `last_active` (committed) and returns the row. -/
def get_chat_session (db : DB) (now : Nat) (sid : Nat) : Option SessionRec × DB :=
  match db.sessions.find? (fun s => s.session_id == sid) with
  | some s =>
      (some { s with last_active := now },
       updateSessionRow db sid (fun t => { t with last_active := now }))
  | none => (none, db)

/-- Field updates accepted by `DatabaseService.update_chat_session`; of the
allowed list only `title` and `is_archived` are real columns (`metadata`
fails the hasattr check). -/
structure SessionUpdates where
  title : Option String
  is_archived : Option Bool
deriving Repr, DecidableEq

/-- Application of the allowed field updates to a fetched row. -/
def applyUpdates (s : SessionRec) (u : SessionUpdates) : SessionRec :=
  let s1 := match u.title with
            | some t => { s with title := t }
            | none => s
  match u.is_archived with
  | some b => { s1 with is_archived := b }
  | none => s1

/-- Embeds `DatabaseService.update_chat_session`: apply the allowed updates to
the fetched row and refresh `last_active`; `False` when the row is absent. -/
def update_chat_session (db : DB) (now : Nat) (sid : Nat) (upd : SessionUpdates) :
    Bool × DB :=
  match db.sessions.find? (fun s => s.session_id == sid) with
  | none => (false, db)
  | some _ =>
      (true, updateSessionRow db sid (fun s => { applyUpdates s upd with last_active := now }))

/-- Embeds `DatabaseService.delete_chat_session`: drop the row (the unique
`session_id` matches at most one) and, by the cascade, its messages. -/
def delete_chat_session (db : DB) (sid : Nat) : Bool × DB :=
  match db.sessions.find? (fun s => s.session_id == sid) with
  | none => (false, db)
  | some s =>
      (true, { db with
                 sessions := db.sessions.filter (fun t => t.session_id != sid)
                 messages := db.messages.filter (fun m => m.chat_session_id != s.id) })

/-- Embeds `DatabaseService.clear_chat_session`: delete the session's
messages, zero `message_count`, refresh `last_active` — and nothing else: in
particular `ai_context` is left as it was (the separate `clear_ai_context`
helper exists but this function does not call it). -/
def clear_chat_session (db : DB) (now : Nat) (sid : Nat) : Bool × DB :=
  match db.sessions.find? (fun s => s.session_id == sid) with
  | none => (false, db)
  | some s =>
      (true, updateSessionRow
               { db with messages := db.messages.filter (fun m => m.chat_session_id != s.id) }
               sid
               (fun t => { t with message_count := 0, last_active := now }))

/-- Embeds `clear_session_messages` (database.py): delete the session's
messages, zero `message_count`, reset `ai_context` to empty, refresh
`last_active`; the row itself survives. -/
def clear_session_messages (db : DB) (now : Nat) (sid : Nat) : DB :=
  match db.sessions.find? (fun s => s.session_id == sid) with
  | none => db
  | some s =>
      updateSessionRow
        { db with messages := db.messages.filter (fun m => m.chat_session_id != s.id) }
        sid
        (fun t => { t with message_count := 0, ai_context := [], last_active := now })

/-- Errors raised by the database helpers in database.py. -/
inductive DbError where
  | sessionNotFound
deriving Repr, DecidableEq

/-- Embeds `add_message_to_session` (database.py): raises when the session is
unknown; otherwise the new message's `message_index` is the current number of
stored messages of that session (equivalently max index + 1, indices being
0..n-1), and `message_count` becomes that number plus one. -/
def add_message_to_session (db : DB) (now : Nat) (sid : Nat) (role content : String) :
    Except DbError (MessageRec × DB) :=
  match db.sessions.find? (fun s => s.session_id == sid) with
  | none => .error .sessionNotFound
  | some s =>
      let n := (db.messages.filter (fun m => m.chat_session_id == s.id)).length
      let msg : MessageRec :=
        { id := db.nextMessageId, chat_session_id := s.id, role := role,
          content := content, timestamp := now, message_index := n }
      .ok (msg,
           updateSessionRow
             { db with
                 messages := db.messages ++ [msg]
                 nextMessageId := db.nextMessageId + 1 }
             sid
             (fun t => { t with message_count := n + 1, last_active := now }))

/-- Embeds `DatabaseService.add_message`: `None` when the session is unknown;
otherwise append the message and bump `message_count` by one.  The `Message`
model class it instantiates is absent from the sources (only this caller is);
Modelled from the spec: its `message_index` is monotonic within the session,
assigned as max + 1 — i.e. the current number of stored messages, as in
`add_message_to_session`. -/
def add_message (db : DB) (now : Nat) (sid : Nat) (role content : String) :
    Option MessageRec × DB :=
  match db.sessions.find? (fun s => s.session_id == sid) with
  | none => (none, db)
  | some s =>
      let n := (db.messages.filter (fun m => m.chat_session_id == s.id)).length
      let msg : MessageRec :=
        { id := db.nextMessageId, chat_session_id := s.id, role := role,
          content := content, timestamp := now, message_index := n }
      (some msg,
       updateSessionRow
         { db with
             messages := db.messages ++ [msg]
             nextMessageId := db.nextMessageId + 1 }
         sid
         (fun t => { t with message_count := t.message_count + 1, last_active := now }))

/-- Embeds `DatabaseService.get_session_messages` (the variant main.py calls
for restoration and history): the session's messages in insertion order
(timestamp order here coincides with it), first 100. -/
def get_session_messages (db : DB) (sid : Nat) : List MessageRec :=
  match db.sessions.find? (fun s => s.session_id == sid) with
  | none => []
  | some s => ((db.messages.filter (fun m => m.chat_session_id == s.id)).take 100)

/-- Embeds `ensure_session_exists_in_db` (db_service.py): when the id has no
durable row, the *vulnerable* `get_or_create_user` supplies an owner and a row
is created under that owner. -/
def ensure_session_exists_in_db (db : DB) (now : Nat) (sid : Nat) : Bool × DB :=
  let (found, db) := get_chat_session db now sid
  match found with
  | some _ => (true, db)
  | none =>
      let (u, db) := get_or_create_user db now none
      let (_, db) := create_chat_session db now (some u.id) (some sid) (some titleRestored)
      (true, db)

/-- In-memory message of the `conversations` cache (class ChatMessage in
main.py, a pydantic model distinct from the ORM one). -/
structure MemMessage where
  role : String
  content : String
  timestamp : Nat
deriving Repr, DecidableEq

/-- One entry of the process-wide `conversations` dict: the live message list,
timestamps, and the id of the user the entry was created or restored under
(the opaque Gemini chat handle is the external conversation engine and is not
modelled). -/
structure MemSession where
  messages : List MemMessage
  created_at : Nat
  last_active : Nat
  user_id : Option Nat
deriving Repr, DecidableEq

/-- Whole-process state: the `conversations` cache (an association list keyed
by session id) on top of the durable store, plus the wall clock. -/
structure ServerState where
  conversations : List (Nat × MemSession)
  db : DB
  clock : Nat
deriving Repr, DecidableEq

/-- Cache lookup (`session_id in conversations` / `conversations[sid]`). -/
def lookupConv (conv : List (Nat × MemSession)) (sid : Nat) : Option MemSession :=
  (conv.find? (fun p => p.fst == sid)).map (fun p => p.snd)

/-- Keyed update of one cache entry. -/
def updateConv (conv : List (Nat × MemSession)) (sid : Nat) (f : MemSession → MemSession) :
    List (Nat × MemSession) :=
  conv.map (fun p => if p.fst = sid then (p.fst, f p.snd) else p)

/-- `user.get('session_token') if user else str(uuid.uuid4())` — the token
handed back with a session id by `create_session`/`ensure_session_exists`. -/
def userTokenOrFresh (user : Option UserRec) (db : DB) : Option Nat × DB :=
  match user with
  | some u => (u.session_token, db)
  | none => (some db.uuidCtr, { db with uuidCtr := db.uuidCtr + 1 })

/-- Embeds `MathTeacherAPI.create_session`: mint a fresh session id, insert an
empty cache entry recording the caller's user id (if any), mirror the session
into the durable store only when an identity is present, and return the id
with the caller's legacy token (or a fresh one). -/
def create_session (st : ServerState) (user : Option UserRec) :
    (Nat × Option Nat) × ServerState :=
  let sid := st.db.uuidCtr
  let db0 := { st.db with uuidCtr := st.db.uuidCtr + 1 }
  let mem : MemSession :=
    { messages := [], created_at := st.clock, last_active := st.clock,
      user_id := user.map (fun u => u.id) }
  let db1 :=
    match user with
    | some u => (create_chat_session db0 st.clock (some u.id) (some sid)
                   (some titleNewSession)).2
    | none => db0
  let (tok, db2) := userTokenOrFresh user db1
  ((sid, tok),
   { st with conversations := st.conversations ++ [(sid, mem)], db := db2 })

/-- Embeds `MathTeacherAPI.ensure_session_exists`: a cached id is refreshed
and returned as-is (mirroring it durably when an identity is present); an id
with only a durable row is restored into the cache — the cache entry's
`user_id` becomes the *caller's* id and the durable messages are replayed —
and returned as-is; otherwise a new session is created.  No ownership check
appears anywhere on this path. -/
def ensure_session_exists (st : ServerState) (session_id : Option Nat)
    (user : Option UserRec) : (Nat × Option Nat) × ServerState :=
  match session_id with
  | none => create_session st user
  | some sid =>
    if (lookupConv st.conversations sid).isSome then
      let conv := updateConv st.conversations sid
                    (fun m => { m with last_active := st.clock })
      let db :=
        match user with
        | some _ => (ensure_session_exists_in_db st.db st.clock sid).2
        | none => st.db
      let (tok, db) := userTokenOrFresh user db
      ((sid, tok), { st with conversations := conv, db := db })
    else
      let (found, db) := get_chat_session st.db st.clock sid
      match found with
      | some row =>
          let msgs := get_session_messages db sid
          let mem : MemSession :=
            { messages := msgs.map (fun m =>
                { role := m.role, content := m.content, timestamp := m.timestamp }),
              created_at := row.created_at, last_active := st.clock,
              user_id := user.map (fun u => u.id) }
          let (tok, db) := userTokenOrFresh user db
          ((sid, tok),
           { st with conversations := st.conversations ++ [(sid, mem)], db := db })
      | none => create_session st user

/-- Caller-facing error surface of the session endpoints in main.py. -/
inductive ApiError where
  | accessDenied
  | notFound
deriving Repr, DecidableEq

/-- Response of the history endpoint (class ConversationHistory). -/
structure HistoryResponse where
  session_id : Nat
  messages : List MemMessage
  created_at : Nat
  last_active : Nat
deriving Repr, DecidableEq

/-- Embeds the `get_conversation_history` endpoint (main.py): the ownership
check runs only when an identity resolved (`if user and ...`), and even then
only against a durable row with a truthy owner; afterwards the cache is
served first, then the durable store, and only a session found nowhere is a
404. -/
def get_conversation_history (st : ServerState) (sid : Nat) (user : Option UserRec) :
    Except ApiError HistoryResponse × ServerState :=
  let guard : Option ApiError × ServerState :=
    match user with
    | none => (none, st)
    | some u =>
        let (found, db) := get_chat_session st.db st.clock sid
        let st' := { st with db := db }
        match found with
        | some row =>
            if row.user_id != 0 && row.user_id != u.id then (some .accessDenied, st')
            else (none, st')
        | none => (none, st')
  match guard with
  | (some e, st') => (.error e, st')
  | (none, st') =>
    match lookupConv st'.conversations sid with
    | some mem =>
        (.ok { session_id := sid, messages := mem.messages,
               created_at := mem.created_at, last_active := mem.last_active }, st')
    | none =>
      let (found, db) := get_chat_session st'.db st'.clock sid
      let st'' := { st' with db := db }
      match found with
      | some row =>
          let msgs := get_session_messages db sid
          (.ok { session_id := sid,
                 messages := msgs.map (fun m =>
                   { role := m.role, content := m.content, timestamp := m.timestamp }),
                 created_at := row.created_at, last_active := row.last_active }, st'')
      | none => (.error .notFound, st'')

/-- Response of the delete endpoint: which stores the session was removed
from (removal from neither is still a 200 "already deleted"). -/
structure DeleteResponse where
  deleted_from_memory : Bool
  deleted_from_db : Bool
deriving Repr, DecidableEq

/-- Embeds the `delete_session` endpoint (main.py): the ownership check runs
only for a resolved identity whose `account_type` is not `anonymous`; then
the id is removed from the cache and the durable store unconditionally. -/
def delete_session (st : ServerState) (sid : Nat) (user : Option UserRec) :
    Except ApiError DeleteResponse × ServerState :=
  let guard : Option ApiError × ServerState :=
    match user with
    | none => (none, st)
    | some u =>
        if u.account_type != anonType then
          let (found, db) := get_chat_session st.db st.clock sid
          let st' := { st with db := db }
          match found with
          | some row =>
              if row.user_id != u.id then (some .accessDenied, st') else (none, st')
          | none => (none, st')
        else (none, st)
  match guard with
  | (some e, st') => (.error e, st')
  | (none, st') =>
    let fromMem := (lookupConv st'.conversations sid).isSome
    let conv := st'.conversations.filter (fun p => p.fst != sid)
    let (fromDb, db) := delete_chat_session st'.db sid
    (.ok { deleted_from_memory := fromMem, deleted_from_db := fromDb },
     { st' with conversations := conv, db := db })

/-- Ownership view of a durable session row: its public id and its owner. -/
def ownerKey (s : SessionRec) : Nat × Nat := (s.session_id, s.user_id)

/-- Messages stored for one session row, in insertion order. -/
def sessionMessages (db : DB) (rowId : Nat) : List MessageRec :=
  db.messages.filter (fun m => m.chat_session_id == rowId)

/-- Scenario plumbing: run one append through `add_message_to_session` and
keep the resulting store (the error branch cannot occur in the scenarios). -/
def addStep (db : DB) (role content : String) : DB :=
  match add_message_to_session db 0 10 role content with
  | .ok p => p.2
  | .error _ => db

/- Concrete fixtures used by counterexamples and witnesses. -/

/-- First user message of the literal end-to-end scenario. -/
def strQ1 : String := "2+2?"

/-- First assistant reply (collaborator output, content arbitrary). -/
def strR1 : String := "4"

/-- Second user message of the literal scenario. -/
def strQ2 : String := "thanks"

/-- Second assistant reply. -/
def strR2 : String := "you are welcome"

/-- Fixture ai-context entry. -/
def ctxStr : String := "ctx"

/-- Fixture registration e-mail. -/
def emailX : String := "x@y.com"

/-- Fixture registration password. -/
def pwX : String := "secret123"

/-- Anonymous user A, owner of the fixture session (token 100). -/
def userA : UserRec :=
  { id := 1, username := none, email := none, password_hash := none,
    session_token := some 100, display_name := none, is_active := true,
    is_verified := false, account_type := anonType, created_at := 0,
    last_active := 0, last_login := none, preferences := defaultPrefs }

/-- A different anonymous user B (token 200), not the owner of the fixture
session. -/
def userB : UserRec :=
  { userA with id := 2, session_token := some 200 }

/-- A registered user with B's id, for exercising the non-anonymous guard. -/
def userReg : UserRec :=
  { userA with
      id := 2
      session_token := some 200
      email := some emailX
      password_hash := some (hashPassword pwX)
      account_type := registeredType }

/-- Fixture durable session S1 (public id 10, row id 1) owned by user A, with
one stored message and a non-empty ai-context. -/
def sessionS1 : SessionRec :=
  { id := 1, session_id := 10, user_id := 1, title := titleNewSession,
    message_count := 1, is_archived := false, ai_context := [ctxStr],
    created_at := 0, last_active := 0 }

/-- The one stored message of S1. -/
def msg0 : MessageRec :=
  { id := 1, chat_session_id := 1, role := roleUser, content := strQ1,
    timestamp := 0, message_index := 0 }

/-- Fixture durable store: users A and B, session S1, its message. -/
def exDb : DB :=
  { users := [userA, userB], sessions := [sessionS1], messages := [msg0],
    nextUserId := 3, nextSessionRowId := 2, nextMessageId := 2, uuidCtr := 1000 }

/-- The cache entry for S1 as created under user A. -/
def memS1 : MemSession :=
  { messages := [ { role := roleUser, content := strQ1, timestamp := 0 } ],
    created_at := 0, last_active := 0, user_id := some 1 }

/-- Server state with S1 both cached and durable. -/
def exStCached : ServerState :=
  { conversations := [(10, memS1)], db := exDb, clock := 5 }

/-- Server state with S1 only durable (e.g. after a process restart). -/
def exStUncached : ServerState :=
  { conversations := [], db := exDb, clock := 5 }

/-- Empty fixture session (public id 10, row id 1, owner A, no messages). -/
def sessionS0 : SessionRec :=
  { id := 1, session_id := 10, user_id := 1, title := titleNewSession,
    message_count := 0, is_archived := false, ai_context := [], created_at := 0,
    last_active := 0 }

/-- Fresh store for the literal message scenario: user A and the empty
session. -/
def freshChatDb : DB :=
  { users := [userA], sessions := [sessionS0], messages := [],
    nextUserId := 2, nextSessionRowId := 2, nextMessageId := 1, uuidCtr := 50 }

/-! Theorems.  Each claim of the specification review is settled by exactly
one theorem below; counterexamples are closed evaluations of the embedded
code at concrete states. -/

/-- A keyed in-place row update whose function preserves `session_id` and
`user_id` preserves the ownership view of the whole table. -/
theorem map_ownerKey_keyed_update (l : List SessionRec) (sid : Nat)
    (f : SessionRec → SessionRec) (hf : ∀ s, ownerKey (f s) = ownerKey s) :
    (l.map (fun s => if s.session_id = sid then f s else s)).map ownerKey =
      l.map ownerKey := by
  induction l with
  | nil => rfl
  | cons a t ih =>
      simp only [List.map_cons, ih]
      by_cases h : a.session_id = sid <;> simp [h, hf]

/-- A keyed in-place user update that preserves the id of the rows it is
applied to preserves the list of user ids. -/
theorem map_id_keyed_user_update (l : List UserRec) (uid : Nat)
    (f : UserRec → UserRec) (hf : ∀ u, u.id = uid → (f u).id = u.id) :
    (l.map (fun u => if u.id = uid then f u else u)).map (fun u => u.id) =
      l.map (fun u => u.id) := by
  induction l with
  | nil => rfl
  | cons a t ih =>
      simp only [List.map_cons, ih]
      by_cases h : a.id = uid <;> simp [h, hf a]

/-- The fixed creation path (`ensure_user_exists`, database.py) mints a
brand-new user with a brand-new token on every miss: the created id and token
are the current counter values and both counters advance, so successive
credential-less calls can never repeat a user or a token. -/
theorem ensure_user_exists_mints_fresh (db : DB) (now : Nat) :
    (ensure_user_exists db now none none).1.id = db.nextUserId ∧
    (ensure_user_exists db now none none).1.session_token = some db.uuidCtr ∧
    (ensure_user_exists db now none none).2.nextUserId = db.nextUserId + 1 ∧
    (ensure_user_exists db now none none).2.uuidCtr = db.uuidCtr + 1 := by
  simp [ensure_user_exists]

/-- Claim C1 counterexample: with no resolved identity, a history read of the
existing session S1 (cached, owned by user A) succeeds and returns S1's
messages, instead of failing with AccessDenied as the claim requires. -/
theorem history_without_identity_returns_messages :
    (get_conversation_history exStCached 10 none).1 =
      .ok { session_id := 10, messages := memS1.messages,
            created_at := 0, last_active := 0 } := by
  rfl

/-- Claim C1 (amended): the history endpoint runs its ownership check only
when an identity resolved; with identity `None` the guard is skipped
entirely, so the read never fails with AccessDenied — an existing cached
session's messages are returned, an uncached session with a durable row is
served from the durable store, and NotFound occurs exactly when the session
exists in neither store. -/
theorem history_guard_skipped_without_identity :
    (∀ (st : ServerState) (sid : Nat),
       (get_conversation_history st sid none).1 ≠ .error .accessDenied) ∧
    (∀ (st : ServerState) (sid : Nat) (mem : MemSession),
       lookupConv st.conversations sid = some mem →
       (get_conversation_history st sid none).1 =
         .ok { session_id := sid, messages := mem.messages,
               created_at := mem.created_at, last_active := mem.last_active }) ∧
    (∀ (st : ServerState) (sid : Nat) (row : SessionRec),
       lookupConv st.conversations sid = none →
       (get_chat_session st.db st.clock sid).1 = some row →
       (get_conversation_history st sid none).1 =
         .ok { session_id := sid,
               messages := (get_session_messages (get_chat_session st.db st.clock sid).2 sid).map
                 (fun m => { role := m.role, content := m.content, timestamp := m.timestamp }),
               created_at := row.created_at, last_active := row.last_active }) ∧
    (∀ (st : ServerState) (sid : Nat),
       (get_conversation_history st sid none).1 = .error .notFound ↔
         (lookupConv st.conversations sid = none ∧
          (get_chat_session st.db st.clock sid).1 = none)) := by
  refine ⟨?_, ?_, ?_, ?_⟩
  · intro st sid
    unfold get_conversation_history
    cases hl : lookupConv st.conversations sid with
    | some mem => simp [hl]
    | none =>
        cases hg : get_chat_session st.db st.clock sid with
        | mk found db => cases found <;> simp [hl, hg]
  · intro st sid mem hl
    unfold get_conversation_history
    simp [hl]
  · intro st sid row hl hg
    unfold get_conversation_history
    cases hgc : get_chat_session st.db st.clock sid with
    | mk found db2 =>
        rw [hgc] at hg
        simp only at hg
        subst hg
        simp [hl, hgc]
  · intro st sid
    unfold get_conversation_history
    cases hl : lookupConv st.conversations sid with
    | some mem => simp [hl]
    | none =>
        cases hg : get_chat_session st.db st.clock sid with
        | mk found db2 => cases found <;> simp [hl, hg]

/-- Claim C1 witness: the amended statement applied to the concrete states —
the cached session, the durable-only session (served from the durable
store), and an id existing nowhere (NotFound). -/
theorem history_guard_skipped_without_identity_witness :
    lookupConv exStCached.conversations 10 = some memS1 ∧
    (get_conversation_history exStCached 10 none).1 =
      .ok { session_id := 10, messages := memS1.messages,
            created_at := memS1.created_at, last_active := memS1.last_active } ∧
    lookupConv exStUncached.conversations 10 = none ∧
    (get_conversation_history exStUncached 10 none).1 =
      .ok { session_id := 10,
            messages := (get_session_messages
                (get_chat_session exStUncached.db exStUncached.clock 10).2 10).map
              (fun m => { role := m.role, content := m.content, timestamp := m.timestamp }),
            created_at := 0, last_active := 5 } ∧
    ((get_conversation_history exStUncached 77 none).1 = .error .notFound ↔
       (lookupConv exStUncached.conversations 77 = none ∧
        (get_chat_session exStUncached.db exStUncached.clock 77).1 = none)) :=
  ⟨by decide,
   history_guard_skipped_without_identity.2.1 exStCached 10 memS1 (by decide),
   by decide,
   history_guard_skipped_without_identity.2.2.1 exStUncached 10
     { sessionS1 with last_active := 5 } (by decide) (by decide),
   history_guard_skipped_without_identity.2.2.2 exStUncached 77⟩

/-- Claim C2: evaluation at the failing input.
`DatabaseService.get_or_create_user` (db_service.py), one of the two cited
implementations of `getOrCreateAnonymous`, still contains the reuse-on-miss
fallback that database.py's security fix documents as the session-mixing
defect: on a store already holding anonymous users, two successive calls
with no token both return the stored user with id 1 and create no user,
instead of minting two distinct fresh users with distinct tokens. -/
theorem get_or_create_user_reuses_existing_anonymous :
    ((get_or_create_user exDb 5 none).1.id = 1) ∧
    ((get_or_create_user (get_or_create_user exDb 5 none).2 6 none).1.id = 1) ∧
    ((get_or_create_user (get_or_create_user exDb 5 none).2 6 none).2.users.length
       = exDb.users.length) := by
  decide

/-- Claim C6 counterexample: a valid, unexpired refresh token presented as a
bearer credential resolves to an identity (the guard in
`get_user_from_token` never inspects the token's type), contradicting the
claim that such a token resolves to no identity. -/
theorem refresh_token_as_bearer_resolves :
    ((get_user_from_token exDb 0 (create_refresh_token 0 1)).1.isSome = true) ∧
    ((create_refresh_token 0 1).typ = typeRefresh) := by
  decide

/-- Claim C6 (amended): token typing is enforced in one direction only.
`refresh_access_token` rejects every token whose type is not `refresh` (in
particular access tokens), but `get_user_from_token` never reads the type:
its result is invariant under changing the type claim, so a valid refresh
token works as a bearer credential. -/
theorem token_typing_enforced_one_way :
    (∀ (db : DB) (now : Nat) (tok : JwtPayload), tok.typ ≠ typeRefresh →
       ∀ r, refresh_access_token db now tok ≠ .ok r) ∧
    (∀ (db : DB) (now : Nat) (tok : JwtPayload) (s : String),
       get_user_from_token db now { tok with typ := s } =
         get_user_from_token db now tok) := by
  constructor
  · intro db now tok h r
    unfold refresh_access_token verify_token
    by_cases he : tok.exp < now
    · simp [he]
    · have hb : (tok.typ != typeRefresh) = true := by
        simpa using h
      simp [he, hb]
  · intro db now tok s
    unfold get_user_from_token verify_token
    by_cases he : tok.exp < now <;> simp [he]

/-- Claim C6 witness: the amended statement applied to a concrete access
token, which the refresh operation rejects. -/
theorem token_typing_enforced_one_way_witness :
    refresh_access_token exDb 0 (create_access_token 0 1 none) ≠
      .ok ({ access_token := create_access_token 0 1 none,
             refresh_token := create_refresh_token 0 1, expires_in := 0 }, exDb) :=
  token_typing_enforced_one_way.1 exDb 0 (create_access_token 0 1 none) (by decide) _

/-- After `delete_chat_session` no durable row carries the deleted session
id (whether or not a row existed). -/
theorem delete_chat_session_removes (db : DB) (sid : Nat) :
    ∀ s ∈ (delete_chat_session db sid).2.sessions, s.session_id ≠ sid := by
  unfold delete_chat_session
  cases hf : db.sessions.find? (fun s => s.session_id == sid) with
  | none =>
      intro s hs
      simp only at hs
      have := List.find?_eq_none.mp hf s hs
      simpa using this
  | some s0 =>
      intro s hs
      simp only at hs
      have := (List.mem_filter.mp hs).2
      simpa using this

/-- Claim C3 counterexample: session S1 (public id 10) is owned by user A,
yet `ensure_session_exists` under the different anonymous identity B returns
S1 itself — both when S1 is cached and when it is only durable — instead of
a new session id distinct from S1. -/
theorem ensure_session_returns_foreign_session :
    ((ensure_session_exists exStCached (some 10) (some userB)).1.1 = 10) ∧
    ((ensure_session_exists exStUncached (some 10) (some userB)).1.1 = 10) := by
  decide

/-- Claim C3 (amended): `ensure_session_exists` applies no ownership guard at
all: a cached session id is refreshed and returned as-is for every caller
identity, and an uncached id with a durable row is restored and returned
as-is for every caller identity; a new session is created only when the id
exists in neither store. -/
theorem ensure_session_no_ownership_guard :
    (∀ (st : ServerState) (sid : Nat) (user : Option UserRec),
       (lookupConv st.conversations sid).isSome = true →
       (ensure_session_exists st (some sid) user).1.1 = sid) ∧
    (∀ (st : ServerState) (sid : Nat) (user : Option UserRec) (row : SessionRec),
       lookupConv st.conversations sid = none →
       (get_chat_session st.db st.clock sid).1 = some row →
       (ensure_session_exists st (some sid) user).1.1 = sid) := by
  constructor
  · intro st sid user h
    cases user <;> simp [ensure_session_exists, h, userTokenOrFresh]
  · intro st sid user row hl hg
    have h2 : (lookupConv st.conversations sid).isSome = false := by simp [hl]
    cases hgc : get_chat_session st.db st.clock sid with
    | mk found db2 =>
        rw [hgc] at hg
        simp only at hg
        subst hg
        cases user <;> simp [ensure_session_exists, h2, hgc, userTokenOrFresh]

/-- Claim C3 witness: the amended statement applied to the concrete cached
and durable-only states. -/
theorem ensure_session_no_ownership_guard_witness :
    (lookupConv exStCached.conversations 10).isSome = true ∧
    (ensure_session_exists exStCached (some 10) (some userB)).1.1 = 10 ∧
    lookupConv exStUncached.conversations 10 = none ∧
    (ensure_session_exists exStUncached (some 10) (some userB)).1.1 = 10 :=
  ⟨by decide,
   ensure_session_no_ownership_guard.1 exStCached 10 (some userB) (by decide),
   by decide,
   ensure_session_no_ownership_guard.2 exStUncached 10 (some userB)
     { sessionS1 with last_active := 5 } (by decide) (by decide)⟩

/-- Claim C4 counterexample: the anonymous user B, who does not own session
S1 (owner: user A), deletes it: the endpoint succeeds and removes the
session from both the cache and the durable registry, instead of failing
with AccessDenied as the claim requires for every caller identity. -/
theorem delete_by_non_owner_anonymous_succeeds :
    ((delete_session exStCached 10 (some userB)).1 =
       .ok { deleted_from_memory := true, deleted_from_db := true }) ∧
    ((delete_session exStCached 10 (some userB)).2.db.sessions = []) ∧
    ((delete_session exStCached 10 (some userB)).2.conversations = []) :=
  ⟨by rfl, by decide, by decide⟩

/-- Claim C4 (amended): the delete endpoint enforces ownership only for a
resolved identity whose account type is not `anonymous`.  An unresolved or
anonymous caller bypasses the guard entirely: the delete proceeds and
afterwards no durable row with that session id remains.  For a resolved
non-anonymous caller who does not own the (existing) session, denial does
surface as AccessDenied. -/
theorem delete_guard_only_for_non_anonymous :
    (∀ (st : ServerState) (sid : Nat),
       (delete_session st sid none).1 ≠ .error .accessDenied ∧
       ∀ s ∈ (delete_session st sid none).2.db.sessions, s.session_id ≠ sid) ∧
    (∀ (st : ServerState) (sid : Nat) (u : UserRec), u.account_type = anonType →
       (delete_session st sid (some u)).1 ≠ .error .accessDenied ∧
       ∀ s ∈ (delete_session st sid (some u)).2.db.sessions, s.session_id ≠ sid) ∧
    (∀ (st : ServerState) (sid : Nat) (u : UserRec) (row : SessionRec),
       u.account_type ≠ anonType →
       (get_chat_session st.db st.clock sid).1 = some row →
       row.user_id ≠ u.id →
       (delete_session st sid (some u)).1 = .error .accessDenied) := by
  refine ⟨?_, ?_, ?_⟩
  · intro st sid
    have hrm := delete_chat_session_removes st.db sid
    unfold delete_session
    cases hd : delete_chat_session st.db sid with
    | mk b db2 =>
        rw [hd] at hrm
        exact ⟨by simp [hd], by simpa [hd] using hrm⟩
  · intro st sid u hu
    have hrm := delete_chat_session_removes st.db sid
    unfold delete_session
    cases hd : delete_chat_session st.db sid with
    | mk b db2 =>
        rw [hd] at hrm
        exact ⟨by simp [hd, hu], by simpa [hd, hu] using hrm⟩
  · intro st sid u row hu hg hro
    have hu' : (u.account_type != anonType) = true := by simpa using hu
    have hro' : (row.user_id != u.id) = true := by simpa using hro
    unfold delete_session
    cases hgc : get_chat_session st.db st.clock sid with
    | mk found db2 =>
        rw [hgc] at hg
        simp only at hg
        subst hg
        simp [hu', hro']

/-- Claim C4 witness: the amended statement applied to the concrete state —
the anonymous non-owner's delete goes through, the registered non-owner's
delete is denied. -/
theorem delete_guard_only_for_non_anonymous_witness :
    userB.account_type = anonType ∧
    (delete_session exStCached 10 (some userB)).1 ≠ .error .accessDenied ∧
    userReg.account_type ≠ anonType ∧
    (delete_session exStCached 10 (some userReg)).1 = .error .accessDenied :=
  ⟨by decide,
   ((delete_guard_only_for_non_anonymous.2.1 exStCached 10 userB (by decide)).1),
   by decide,
   delete_guard_only_for_non_anonymous.2.2 exStCached 10 userReg
     { sessionS1 with last_active := 5 } (by decide) (by decide) (by decide)⟩

/-- `get_chat_session` only touches `last_active`: the ownership view of the
session table is unchanged by the read. -/
theorem get_chat_session_ownerKey (db : DB) (now sid : Nat) :
    (get_chat_session db now sid).2.sessions.map ownerKey =
      db.sessions.map ownerKey := by
  unfold get_chat_session
  cases hf : db.sessions.find? (fun s => s.session_id == sid) with
  | none => rfl
  | some s =>
      exact map_ownerKey_keyed_update db.sessions sid _ (fun t => rfl)

/-- Handing back a legacy token never touches the session table. -/
theorem userTokenOrFresh_sessions (user : Option UserRec) (db : DB) :
    (userTokenOrFresh user db).2.sessions = db.sessions := by
  cases user <;> rfl

/-- Appending a fresh cache entry under a key not yet cached makes it the
entry the cache lookup returns. -/
theorem lookupConv_append_self (conv : List (Nat × MemSession)) (sid : Nat)
    (m : MemSession) (h : lookupConv conv sid = none) :
    lookupConv (conv ++ [(sid, m)]) sid = some m := by
  unfold lookupConv at h ⊢
  have h' : conv.find? (fun p => p.fst == sid) = none := by
    cases hf : conv.find? (fun p => p.fst == sid) with
    | none => rfl
    | some p => rw [hf] at h; simp at h
  simp [List.find?_append, h']

/-- Claim C7 counterexample: session S1 (id 10) is durably owned by user A
(id 1) and not cached; restoring it under the different identity B (id 2)
returns S1 itself — no different, new session is produced — and the cache
entry created for S1 records `user_id = 2` while the durable row still says
1. -/
theorem restore_rebinds_cache_owner :
    ((ensure_session_exists exStUncached (some 10) (some userB)).1.1 = 10) ∧
    (lookupConv (ensure_session_exists exStUncached (some 10) (some userB)).2.conversations 10
       = some { messages := [ { role := roleUser, content := strQ1, timestamp := 0 } ],
                created_at := 0, last_active := 5, user_id := some 2 }) ∧
    ((ensure_session_exists exStUncached (some 10) (some userB)).2.db.sessions.map
        (fun s => s.user_id) = [1]) := by
  decide

/-- Claim C7 (amended): the durable `user_id` of every existing session row
is indeed immutable under every mutating operation of the core (property
update, both clears, both message appends, and session restoration), but
restoration itself reuses the same session id under any resolved identity —
no new session is produced — and stamps the *caller's* id into the cache
entry it creates, so the cached ownership record diverges from the durable
owner. -/
theorem session_owner_immutable_but_restore_rebinds :
    (∀ (db : DB) (now sid : Nat) (upd : SessionUpdates),
       (update_chat_session db now sid upd).2.sessions.map ownerKey =
         db.sessions.map ownerKey) ∧
    (∀ (db : DB) (now sid : Nat),
       (clear_chat_session db now sid).2.sessions.map ownerKey =
         db.sessions.map ownerKey) ∧
    (∀ (db : DB) (now sid : Nat),
       (clear_session_messages db now sid).sessions.map ownerKey =
         db.sessions.map ownerKey) ∧
    (∀ (db : DB) (now sid : Nat) (role content : String) (msg : MessageRec) (db' : DB),
       add_message_to_session db now sid role content = .ok (msg, db') →
       db'.sessions.map ownerKey = db.sessions.map ownerKey) ∧
    (∀ (db : DB) (now sid : Nat) (role content : String),
       (add_message db now sid role content).2.sessions.map ownerKey =
         db.sessions.map ownerKey) ∧
    (∀ (st : ServerState) (sid : Nat) (user : Option UserRec) (row : SessionRec),
       lookupConv st.conversations sid = none →
       (get_chat_session st.db st.clock sid).1 = some row →
       (ensure_session_exists st (some sid) user).1.1 = sid ∧
       (lookupConv (ensure_session_exists st (some sid) user).2.conversations sid).map
           (fun m => m.user_id) = some (user.map (fun u => u.id)) ∧
       (ensure_session_exists st (some sid) user).2.db.sessions.map ownerKey =
         st.db.sessions.map ownerKey) := by
  refine ⟨?_, ?_, ?_, ?_, ?_, ?_⟩
  · intro db now sid upd
    unfold update_chat_session
    cases hf : db.sessions.find? (fun s => s.session_id == sid) with
    | none => rfl
    | some s =>
        refine map_ownerKey_keyed_update db.sessions sid _ (fun t => ?_)
        cases h1 : upd.title <;> cases h2 : upd.is_archived <;>
          simp [applyUpdates, ownerKey, h1, h2]
  · intro db now sid
    unfold clear_chat_session
    cases hf : db.sessions.find? (fun s => s.session_id == sid) with
    | none => rfl
    | some s =>
        exact map_ownerKey_keyed_update db.sessions sid _ (fun t => rfl)
  · intro db now sid
    unfold clear_session_messages
    cases hf : db.sessions.find? (fun s => s.session_id == sid) with
    | none => rfl
    | some s =>
        exact map_ownerKey_keyed_update db.sessions sid _ (fun t => rfl)
  · intro db now sid role content msg db' hok
    unfold add_message_to_session at hok
    cases hf : db.sessions.find? (fun s => s.session_id == sid) with
    | none => rw [hf] at hok; exact absurd hok (by simp)
    | some s =>
        rw [hf] at hok
        simp only [Except.ok.injEq, Prod.mk.injEq] at hok
        rw [← hok.2]
        exact map_ownerKey_keyed_update db.sessions sid _ (fun t => rfl)
  · intro db now sid role content
    unfold add_message
    cases hf : db.sessions.find? (fun s => s.session_id == sid) with
    | none => rfl
    | some s =>
        exact map_ownerKey_keyed_update db.sessions sid _ (fun t => rfl)
  · intro st sid user row hl hg
    have h2 : (lookupConv st.conversations sid).isSome = false := by simp [hl]
    have hok := get_chat_session_ownerKey st.db st.clock sid
    cases hgc : get_chat_session st.db st.clock sid with
    | mk found db2 =>
        rw [hgc] at hg hok
        simp only at hg hok
        subst hg
        refine ⟨?_, ?_, ?_⟩
        · cases user <;> simp [ensure_session_exists, h2, hgc, userTokenOrFresh]
        · have happ := lookupConv_append_self st.conversations sid
          cases user <;>
            simp [ensure_session_exists, h2, hgc, userTokenOrFresh, happ _ hl]
        · cases user <;>
            simpa [ensure_session_exists, h2, hgc, userTokenOrFresh] using hok

/-- Claim C7 witness: the amended statement applied to the concrete
durable-only state, restoring A's session under identity B. -/
theorem session_owner_immutable_but_restore_rebinds_witness :
    lookupConv exStUncached.conversations 10 = none ∧
    ((ensure_session_exists exStUncached (some 10) (some userB)).1.1 = 10 ∧
     (lookupConv (ensure_session_exists exStUncached (some 10) (some userB)).2.conversations 10).map
         (fun m => m.user_id) = some ((some userB).map (fun u => u.id)) ∧
     (ensure_session_exists exStUncached (some 10) (some userB)).2.db.sessions.map ownerKey =
       exStUncached.db.sessions.map ownerKey) :=
  ⟨by decide,
   session_owner_immutable_but_restore_rebinds.2.2.2.2.2 exStUncached 10 (some userB)
     { sessionS1 with last_active := 5 } (by decide) (by decide)⟩

/-- A keyed in-place row update whose function preserves `session_id`
commutes with looking the row up again by its session id. -/
theorem find?_updateSessionRow (db : DB) (sid : Nat) (f : SessionRec → SessionRec)
    (hf : ∀ t, (f t).session_id = t.session_id) (s : SessionRec)
    (h : db.sessions.find? (fun t => t.session_id == sid) = some s) :
    (updateSessionRow db sid f).sessions.find? (fun t => t.session_id == sid) =
      some (f s) := by
  unfold updateSessionRow
  rw [List.find?_map]
  have hps : ((fun (t : SessionRec) => t.session_id == sid) ∘
      (fun t => if t.session_id = sid then f t else t)) =
      fun t => t.session_id == sid := by
    funext t
    by_cases ht : t.session_id = sid <;> simp [ht, hf]
  rw [hps, h]
  have hsid : s.session_id = sid := by
    have := List.find?_some h
    simpa using this
  simp [hsid]

/-- Claim C8 counterexample: clearing the fixture session S1 through
`DatabaseService.clear_chat_session` (the function the clear endpoint calls)
empties its messages and zeroes `message_count`, but its `ai_context` is
still the old non-empty blob, not reset to empty as the claim states. -/
theorem clear_leaves_ai_context :
    ((clear_chat_session exDb 5 10).2.sessions.map (fun s => s.ai_context) = [[ctxStr]]) ∧
    ((clear_chat_session exDb 5 10).2.sessions.map (fun s => s.message_count) = [0]) ∧
    ((clear_chat_session exDb 5 10).2.messages = []) := by
  decide

/-- Claim C8 (amended): after a clear of an existing session the message list
is empty and `message_count` is zero while the row survives with the same
`session_id` and `user_id` — but `ai_context` is reset only by the
database-layer `clear_session_messages`; the service-layer
`clear_chat_session`, which the clear endpoint actually calls, leaves
`ai_context` exactly as it was. -/
theorem clear_frame_effect (db : DB) (now sid : Nat) (s : SessionRec)
    (h : db.sessions.find? (fun t => t.session_id == sid) = some s) :
    ((clear_chat_session db now sid).2.sessions.find? (fun t => t.session_id == sid) =
       some { s with message_count := 0, last_active := now }) ∧
    ((clear_chat_session db now sid).2.messages =
       db.messages.filter (fun m => m.chat_session_id != s.id)) ∧
    ((clear_session_messages db now sid).sessions.find? (fun t => t.session_id == sid) =
       some { s with message_count := 0, ai_context := [], last_active := now }) ∧
    ((clear_session_messages db now sid).messages =
       db.messages.filter (fun m => m.chat_session_id != s.id)) := by
  unfold clear_chat_session clear_session_messages
  rw [h]
  exact ⟨find?_updateSessionRow
           { db with messages := db.messages.filter (fun m => m.chat_session_id != s.id) }
           sid (fun t => { t with message_count := 0, last_active := now })
           (fun t => rfl) s h,
         rfl,
         find?_updateSessionRow
           { db with messages := db.messages.filter (fun m => m.chat_session_id != s.id) }
           sid (fun t => { t with message_count := 0, ai_context := [], last_active := now })
           (fun t => rfl) s h,
         rfl⟩

/-- Claim C8 witness: the amended statement applied to the fixture store,
whose session S1 holds one message and a non-empty ai-context. -/
theorem clear_frame_effect_witness :
    exDb.sessions.find? (fun t => t.session_id == 10) = some sessionS1 ∧
    (((clear_chat_session exDb 5 10).2.sessions.find? (fun t => t.session_id == 10) =
        some { sessionS1 with message_count := 0, last_active := 5 }) ∧
     ((clear_chat_session exDb 5 10).2.messages =
        exDb.messages.filter (fun m => m.chat_session_id != sessionS1.id)) ∧
     ((clear_session_messages exDb 5 10).sessions.find? (fun t => t.session_id == 10) =
        some { sessionS1 with message_count := 0, ai_context := [], last_active := 5 }) ∧
     ((clear_session_messages exDb 5 10).messages =
        exDb.messages.filter (fun m => m.chat_session_id != sessionS1.id))) :=
  ⟨by decide, clear_frame_effect exDb 5 10 sessionS1 (by decide)⟩

/-- Claim C9: within a session the stored message indices always form the
contiguous strictly increasing sequence 0..n-1; the next append receives
index n — the current message count, i.e. max index plus one, never a reused
index — and `message_count` becomes the new number of stored messages.  The
literal scenario follows: two user turns with their assistant replies into a
fresh session leave `message_count = 4` and indices 0,1,2,3 in send order. -/
theorem message_index_assigned_as_count :
    (∀ (db : DB) (now sid : Nat) (role content : String) (s : SessionRec) (n : Nat),
       db.sessions.find? (fun t => t.session_id == sid) = some s →
       (sessionMessages db s.id).map (fun m => m.message_index) = List.range n →
       ∃ msg db', add_message_to_session db now sid role content = .ok (msg, db') ∧
         msg.message_index = n ∧
         (sessionMessages db' s.id).map (fun m => m.message_index) = List.range (n + 1) ∧
         db'.sessions.find? (fun t => t.session_id == sid) =
           some { s with message_count := n + 1, last_active := now }) ∧
    (let d1 := addStep freshChatDb roleUser strQ1
     let d2 := addStep d1 roleAssistant strR1
     let d3 := addStep d2 roleUser strQ2
     let d4 := addStep d3 roleAssistant strR2
     d4.sessions.map (fun s => s.message_count) = [4] ∧
       (sessionMessages d4 1).map (fun m => m.message_index) = [0, 1, 2, 3]) := by
  constructor
  · intro db now sid role content s n h hidx
    have hn : (db.messages.filter (fun m => m.chat_session_id == s.id)).length = n := by
      have := congrArg List.length hidx
      simpa [sessionMessages] using this
    unfold add_message_to_session
    rw [h]
    refine ⟨_, _, rfl, hn, ?_, ?_⟩
    · simp only [sessionMessages, updateSessionRow, List.filter_append]
      simp only [sessionMessages] at hidx
      simp [hidx, hn, List.range_succ]
    · have hres := find?_updateSessionRow
        { db with
            messages := db.messages ++
              [{ id := db.nextMessageId, chat_session_id := s.id, role := role,
                 content := content, timestamp := now,
                 message_index := (db.messages.filter (fun m => m.chat_session_id == s.id)).length }]
            nextMessageId := db.nextMessageId + 1 }
        sid (fun t => { t with
            message_count := (db.messages.filter (fun m => m.chat_session_id == s.id)).length + 1,
            last_active := now })
        (fun t => rfl) s h
      rw [← hn]
      exact hres
  · decide

/-- Claim C9 witness: the general statement applied to the fresh fixture
store (no messages yet, so the next index is 0). -/
theorem message_index_assigned_as_count_witness :
    freshChatDb.sessions.find? (fun t => t.session_id == 10) = some sessionS0 ∧
    (∃ msg db', add_message_to_session freshChatDb 0 10 roleUser strQ1 = .ok (msg, db') ∧
       msg.message_index = 0 ∧
       (sessionMessages db' sessionS0.id).map (fun m => m.message_index) = List.range (0 + 1) ∧
       db'.sessions.find? (fun t => t.session_id == 10) =
         some { sessionS0 with message_count := 0 + 1, last_active := 0 }) :=
  ⟨by decide,
   message_index_assigned_as_count.1 freshChatDb 0 10 roleUser strQ1 sessionS0 0
     (by decide) (by decide)⟩

/-- Claim C5: registering with a legacy token that matches an anonymous user
promotes that user in place (the promotion itself modelled from the spec, its
method being absent from the sources): the returned registered user keeps the
anonymous user's id and session token, gets account type `registered`, and
the session table — hence every session's `user_id` linkage — is untouched;
no user row is added or removed. -/
theorem register_with_legacy_token_promotes (db : DB) (now : Nat)
    (email password : String) (dn : Option String) (tok : Nat) (a : UserRec)
    (hmail : db.users.find? (fun u => u.email == some email.toLower) = none)
    (hanon : db.users.find? (fun u =>
        u.session_token == some tok && u.account_type == anonType) = some a) :
    ∃ u tks db', register_user db now email password dn (some tok) = .ok (u, tks, db') ∧
      u.id = a.id ∧ u.account_type = registeredType ∧
      u.session_token = a.session_token ∧
      db'.sessions = db.sessions ∧
      db'.users.map (fun v => v.id) = db.users.map (fun v => v.id) := by
  unfold register_user
  rw [hmail]
  simp only [Option.some_bind]
  rw [hanon]
  refine ⟨_, _, _, rfl, ?_, ?_, ?_, rfl, ?_⟩
  · simp [promote_to_registered]
  · simp [promote_to_registered]
  · simp [promote_to_registered]
  · refine map_id_keyed_user_update db.users a.id _ (fun v hv => ?_)
    simp [promote_to_registered, hv]

/-- Claim C5 witness: registration over the fixture store with user A's
legacy token 100. -/
theorem register_with_legacy_token_promotes_witness :
    ∃ u tks db', register_user exDb 7 emailX pwX none (some 100) = .ok (u, tks, db') ∧
      u.id = userA.id ∧ u.account_type = registeredType ∧
      u.session_token = userA.session_token ∧
      db'.sessions = exDb.sessions ∧
      db'.users.map (fun v => v.id) = exDb.users.map (fun v => v.id) :=
  register_with_legacy_token_promotes exDb 7 emailX pwX none 100 userA
    (by decide) (by decide)

/-- Claim C10: resolving a legacy session token returns the matched user's
data (with `last_active` refreshed) exactly when some stored user carries
that token and is active; an inactive match, like no match, yields no
identity; and the lookup never creates (or removes) a user row. -/
theorem validate_session_token_characterized (db : DB) (now tok : Nat) :
    (∀ w, (validate_session_token db now tok).1 = some w →
       ∃ u, u ∈ db.users ∧ u.session_token = some tok ∧ u.is_active = true ∧
         w = { u with last_active := now }) ∧
    (∀ u, u ∈ db.users → u.session_token = some tok → u.is_active = true →
       (∀ v ∈ db.users, v.session_token = some tok → v = u) →
       (validate_session_token db now tok).1 = some { u with last_active := now }) ∧
    (∀ u, db.users.find? (fun v => v.session_token == some tok) = some u →
       u.is_active = false → (validate_session_token db now tok).1 = none) ∧
    ((validate_session_token db now tok).2.users.map (fun v => v.id) =
       db.users.map (fun v => v.id)) := by
  refine ⟨?_, ?_, ?_, ?_⟩
  · intro w hw
    unfold validate_session_token at hw
    cases hf : db.users.find? (fun v => v.session_token == some tok) with
    | none => rw [hf] at hw; simp at hw
    | some u =>
        rw [hf] at hw
        have hmem := List.mem_of_find?_eq_some hf
        have htok : u.session_token = some tok := by
          have := List.find?_some hf
          simpa using this
        by_cases ha : u.is_active
        · refine ⟨u, hmem, htok, ha, ?_⟩
          simp [ha] at hw
          simp only [ha]
          exact hw.symm
        · simp [ha] at hw
  · intro u hmem htok hact huniq
    unfold validate_session_token
    cases hf : db.users.find? (fun v => v.session_token == some tok) with
    | none =>
        have := List.find?_eq_none.mp hf u hmem
        simp [htok] at this
    | some v =>
        have hvmem := List.mem_of_find?_eq_some hf
        have hvtok : v.session_token = some tok := by
          have := List.find?_some hf
          simpa using this
        have hvu : v = u := huniq v hvmem hvtok
        subst hvu
        simp [hact]
  · intro u hf hinact
    unfold validate_session_token
    rw [hf]
    simp [hinact]
  · unfold validate_session_token
    cases hf : db.users.find? (fun v => v.session_token == some tok) with
    | none => rfl
    | some u =>
        by_cases ha : u.is_active
        · simp only [ha, if_true]
          exact map_id_keyed_user_update db.users u.id _ (fun v _ => rfl)
        · simp [ha]

/-- Claim C10 witness: the characterization applied to the fixture store and
user A's token 100: the lookup succeeds with A's data and the user table
keeps the same ids. -/
theorem validate_session_token_characterized_witness :
    (validate_session_token exDb 7 100).1 = some { userA with last_active := 7 } ∧
    (validate_session_token exDb 7 100).2.users.map (fun v => v.id) =
      exDb.users.map (fun v => v.id) :=
  ⟨(validate_session_token_characterized exDb 7 100).2.1 userA
     (by decide) (by decide) (by decide) (by decide),
   (validate_session_token_characterized exDb 7 100).2.2.2⟩

end MathTeacher
